import Mathlib

/-!
Verification of the Stream Resolution Engine of the Extract-MKV repository.

The definitions below are a shallow embedding of the Python source:
* `ExtractMKV.*` embeds `normalize_bdmv_title_streams` and
  `normalize_bdmv_title` from `extract-mkv.py` (lines 130-177),
* `ConfigPy.*` embeds the default-flag inference of `parse_stream_configs`
  from `src/config.py` (lines 87-96),
* `BdmvDup.*` embeds the duplicate-title chain resolution of
  `parse_bdmv_info` from `src/bdmvinfo.py` (lines 106-119).

Python `exit(1)` after `logging.critical` is modelled as the `fatal`
outcome; an unhandled Python exception (NameError, IndexError, ValueError)
is modelled as the `exc` outcome; `logging.warning` output is collected in
a list.  Python dicts are modelled as association lists with
insert-or-overwrite (`dictInsert`), looked up with `List.lookup`.
-/

namespace ExtractMKV

/-- The three stream types handled by `normalize_bdmv_title` (which calls
`normalize_bdmv_title_streams` once for `"video"`, `"audio"` and
`"subtitle"`). -/
inductive StreamType where
  | video
  | audio
  | subtitle
deriving DecidableEq

/-- The fatal (`logging.critical` + `exit(1)`) errors of
`normalize_bdmv_title_streams`, carrying the data interpolated into the
log message. -/
inductive NormError where
  /-- line 144: "Could not find %s track %i, only %i tracks found" -/
  | trackNotFound (st : StreamType) (trackIndex : Int) (found : Nat)
  /-- line 150: "Expected stream %i to be derived for %s track %i" -/
  | expectedDerived (streamIndex : Int) (st : StreamType) (trackIndex : Int)
deriving DecidableEq

/-- Unhandled Python exceptions that the engine can raise. -/
inductive PyExc where
  /-- line 153 references the undefined variable `config_track` inside the
  `logging.critical` call, so taking that branch raises NameError before
  anything is logged. -/
  | nameError
  /-- `actual_bdmv_streams[track_index]` with a negative index whose
  magnitude exceeds the list length (line 146). -/
  | indexError
  /-- `max(...)` of an empty generator (line 162). -/
  | valueError
deriving DecidableEq

/-- Result of running a piece of the engine: normal result, fatal logged
error (`exit(1)`), or unhandled Python exception. -/
inductive Outcome (α : Type) where
  | ok (a : α)
  | fatal (e : NormError)
  | exc (e : PyExc)
deriving DecidableEq

def Outcome.bind {α β : Type} : Outcome α → (α → Outcome β) → Outcome β
  | .ok a, f => f a
  | .fatal e, _ => .fatal e
  | .exc e, _ => .exc e

/-- `config["track"]` after loading: `{"index": ..., "core": ..., "forced": ...}`. -/
structure TrackSel where
  index : Int
  core : Bool
  forced : Bool
deriving DecidableEq

/-- `config["cropping"]`. -/
structure Cropping where
  left : Int
  top : Int
  right : Int
  bottom : Int
deriving DecidableEq

/-- One stream selector dict from the configuration.  `sourceKey` stands
for `source_key(config)` (the `(_source, _title)` pair, line 130-131),
abstracted to a single comparable value.  `resolvedTrack` is the
`"_track"` entry attached by the engine (absent before resolution). -/
structure StreamCfg where
  sourceKey : Nat
  track : TrackSel
  name : Option String
  language : Option String
  default : Option Bool
  forced : Option Bool
  commentary : Option Bool
  cropping : Option Cropping
  resolvedTrack : Option Int
deriving DecidableEq

/-- The per-title stream inventory of one Title of a `bdmv` record:
`bdmv["video"|"audio"|"subtitle"|"derived"]` for a fixed title id, with
`.get(title_id, [])` already applied. -/
structure TitleInfo where
  video : List Int
  audio : List Int
  subtitle : List Int
  derived : List Int
deriving DecidableEq

/-- `bdmv[stream_type].get(title_id, [])` (line 135). -/
def TitleInfo.streamsOf (t : TitleInfo) : StreamType → List Int
  | .video => t.video
  | .audio => t.audio
  | .subtitle => t.subtitle

/-- line 136: `bdmv_derived = [i for i in bdmv["derived"].get(title_id, []) if i in bdmv_streams]`. -/
def bdmvDerived (streams derivedRaw : List Int) : List Int :=
  derivedRaw.filter fun i => decide (i ∈ streams)

/-- line 137: `actual_bdmv_streams = sorted(i for i in bdmv_streams if i not in bdmv_derived)`. -/
def actualStreams (streams derivedRaw : List Int) : List Int :=
  List.insertionSort (· ≤ ·) (streams.filter fun i => decide (i ∉ bdmvDerived streams derivedRaw))

/-- `bdmv_derived` computed from a title (lines 135-136). -/
def titleDerived (title : TitleInfo) (st : StreamType) : List Int :=
  bdmvDerived (title.streamsOf st) title.derived

/-- `actual_bdmv_streams` computed from a title (lines 135-137). -/
def titleActual (title : TitleInfo) (st : StreamType) : List Int :=
  actualStreams (title.streamsOf st) title.derived

/-- Python list subscription `l[i]`: nonnegative indices from the front,
negative indices from the back, out of range is an IndexError (`none`). -/
def pyGet (l : List Int) (i : Int) : Option Int :=
  if 0 ≤ i then l.get? i.toNat
  else if (-i).toNat ≤ l.length then l.get? (l.length - (-i).toNat)
  else none

/-- line 138: `default_specified = any(config.get("default", False) for config in config_streams)`. -/
def defaultSpecified (cfgs : List StreamCfg) : Bool :=
  cfgs.any fun c => c.default.getD false

/-- lines 142-146: the bounds check `track_index >= len(actual_bdmv_streams)`
(fatal) and the subscription `actual_bdmv_streams[track_index]`. -/
def resolveOrdinal (st : StreamType) (actual : List Int) (trackIndex : Int) : Outcome Int :=
  if (actual.length : Int) ≤ trackIndex then
    .fatal (.trackNotFound st trackIndex actual.length)
  else
    match pyGet actual trackIndex with
    | some a => .ok a
    | none => .exc .indexError

/-- lines 147-151: if the selector sets `core` or `forced`, increment the
index and require membership in `bdmv_derived`, else keep it. -/
def applyDerived (st : StreamType) (bd : List Int) (trackIndex : Int)
    (derivedReq : Bool) (a : Int) : Outcome Int :=
  if derivedReq then
    if (a + 1) ∈ bd then .ok (a + 1)
    else .fatal (.expectedDerived (a + 1) st trackIndex)
  else .ok a

/-- One iteration of the `for config in config_streams` loop
(lines 140-157) for one selector: skip non-matching selectors, resolve the
ordinal, apply the derived request, look the index up in `track_mapping`
(the undefined-variable NameError of line 153 on absence), apply
`setdefault("default", False)` and attach `"_track"`.  Returns the updated
selector and its contribution to `used_bdmv_streams`. -/
def resolveCfg (st : StreamType) (actual bd : List Int) (mapping : List (Int × Int))
    (ds : Bool) (key : Nat) (cfg : StreamCfg) : Outcome (StreamCfg × List Int) :=
  if cfg.sourceKey ≠ key then .ok (cfg, [])
  else
    Outcome.bind (resolveOrdinal st actual cfg.track.index) fun a0 =>
    Outcome.bind (applyDerived st bd cfg.track.index (cfg.track.core || cfg.track.forced) a0) fun a =>
    match List.lookup a mapping with
    | none => .exc .nameError
    | some t =>
      .ok ({ cfg with
              default := if ds then some (cfg.default.getD false) else cfg.default,
              resolvedTrack := some t }, [a])

/-- The whole `for config in config_streams` loop (lines 139-157): the
updated selector list and `used_bdmv_streams`, aborting at the first fatal
error or exception. -/
def resolveAll (st : StreamType) (actual bd : List Int) (mapping : List (Int × Int))
    (ds : Bool) (key : Nat) : List StreamCfg → Outcome (List StreamCfg × List Int)
  | [] => .ok ([], [])
  | c :: cs =>
    match resolveCfg st actual bd mapping ds key c with
    | .fatal e => .fatal e
    | .exc e => .exc e
    | .ok (c', u) =>
      match resolveAll st actual bd mapping ds key cs with
      | .fatal e => .fatal e
      | .exc e => .exc e
      | .ok (cs', us) => .ok (c' :: cs', u ++ us)

/-- line 162: `max(i for i in actual_bdmv_streams if i <= derived_i)`;
`none` is Python's ValueError on an empty generator. -/
def attachedActual (actual : List Int) (d : Int) : Option Int :=
  (actual.filter fun i => decide (i ≤ d)).max?

/-- The `for derived_i in bdmv_derived` warning loop (lines 158-164):
returns the ordinals named by the emitted warnings together with the
exception that terminated the loop, if any (warnings already emitted
before a crash are kept, as `logging.warning` prints immediately). -/
def scanUnused (st : StreamType) (actual used : List Int) (mapping : List (Int × Int)) :
    List Int → List Nat × Option PyExc
  | [] => ([], none)
  | d :: ds =>
    if st = .audio then scanUnused st actual used mapping ds
    else if (List.lookup d mapping).isNone then scanUnused st actual used mapping ds
    else if d ∈ used then scanUnused st actual used mapping ds
    else
      match attachedActual actual d with
      | none => ([], some .valueError)
      | some a =>
        if a ∈ used then
          ((actual.indexOf a) :: (scanUnused st actual used mapping ds).1,
            (scanUnused st actual used mapping ds).2)
        else scanUnused st actual used mapping ds

/-- The full observable result of `normalize_bdmv_title_streams`: the
`bdmv` title data it was given (the function never writes to `bdmv`), the
mutated selector list, `used_bdmv_streams`, and the warnings. -/
structure NormOut where
  title : TitleInfo
  configs : List StreamCfg
  used : List Int
  warnings : List Nat
deriving DecidableEq

/-- `normalize_bdmv_title_streams` (lines 133-164) for one stream type and
one already looked-up title. -/
def normalizeStreams (st : StreamType) (cfgs : List StreamCfg) (key : Nat)
    (title : TitleInfo) (mapping : List (Int × Int)) : Outcome NormOut :=
  match resolveAll st (titleActual title st) (titleDerived title st) mapping
      (defaultSpecified cfgs) key cfgs with
  | .fatal e => .fatal e
  | .exc e => .exc e
  | .ok (cfgs', used) =>
    match scanUnused st (titleActual title st) used mapping (titleDerived title st) with
    | (_, some e) => .exc e
    | (ws, none) => .ok ⟨title, cfgs', used, ws⟩

/-- Python dict assignment `m[k] = v` on an association list: overwrite
the existing binding or append a new one. -/
def dictInsert (m : List (Int × Int)) (k v : Int) : List (Int × Int) :=
  if m.any fun p => decide (p.1 = k) then
    m.map fun p => if p.1 = k then (k, v) else p
  else m ++ [(k, v)]

/-- lines 171-173 of `normalize_bdmv_title`: build
`track_mapping[track["properties"]["number"] - 1] = track["id"]` from the
container's `(number, id)` track list. -/
def buildTrackMapping (tracks : List (Int × Int)) : List (Int × Int) :=
  tracks.foldl (fun m t => dictInsert m (t.1 - 1) t.2) []

/-- The boolean condition under which the warning loop (lines 158-164)
emits a warning for derived index `d` (given that the stream type is not
audio and the attached-actual computation does not crash). -/
def unusedQualifies (actual used : List Int) (mapping : List (Int × Int)) (d : Int) : Bool :=
  (List.lookup d mapping).isSome && !(decide (d ∈ used)) &&
    (match attachedActual actual d with
     | some a => decide (a ∈ used)
     | none => false)

/-- The ordinal named by the warning of line 164:
`actual_bdmv_streams.index(actual_i)`. -/
def unusedWarning (actual : List Int) (d : Int) : Nat :=
  actual.indexOf ((attachedActual actual d).getD 0)

/-- The frame condition of the loop body (lines 141-157) for one selector:
only `default` and the attached `"_track"` may change, and a selector
whose source key does not match the processed title changes not at all. -/
def FramePreserved (key : Nat) (c c2 : StreamCfg) : Prop :=
  c2.sourceKey = c.sourceKey ∧ c2.track = c.track ∧ c2.name = c.name ∧
  c2.language = c.language ∧ c2.forced = c.forced ∧ c2.commentary = c.commentary ∧
  c2.cropping = c.cropping ∧ (c.sourceKey ≠ key → c2 = c)

end ExtractMKV

namespace ConfigPy

/-- `StreamSourceKey` from `src/config.py` (lines 7-12), with the
`BdmvTitleKey` abstracted to a comparable value. -/
structure StreamSourceKey where
  title : Nat
  type : ExtractMKV.StreamType
  index : Int
  derived : Bool
deriving DecidableEq

/-- `StreamConfig` from `src/config.py` (lines 21-29). -/
structure StreamConfig where
  source : StreamSourceKey
  name : Option String
  language : Option String
  default : Option Bool
  forced : Option Bool
  commentary : Option Bool
  cropping : Option ExtractMKV.Cropping
deriving DecidableEq

/-- The default-flag inference of `parse_stream_configs`
(`src/config.py` lines 92-95): if
`any([stream_config.default for stream_config in stream_configs])` (i.e.
some selector has `default` set to `True`), assign `default = False` to
every selector whose `default` is `None`. -/
def inferDefaults (cfgs : List StreamConfig) : List StreamConfig :=
  if cfgs.any fun c => c.default.getD false then
    cfgs.map fun c =>
      match c.default with
      | none => { c with default := some false }
      | some _ => c
  else cfgs

end ConfigPy

namespace BdmvDup

/-- The fatal errors of the duplicate-resolution loop of
`parse_bdmv_info` (`src/bdmvinfo.py` lines 106-119). -/
inductive DupError where
  /-- line 108: "Title %s in %s was listed as a duplicate but has data" -/
  | sourceHasData (source : String)
  /-- line 114: "Title %s in %s is a duplicate of itself" -/
  | selfDuplicate (source : String)
  /-- line 117: "Title %s in %s is a duplicate of nonexistant title %s" -/
  | nonexistentTarget (source target : String)
deriving DecidableEq

/-- The `for _ in range(0, len(duplicate_source) + 1)` chain-following
loop (lines 110-112): starting from `target`, break with the current
value as soon as it is not a key of `duplicate_source`, else step to its
target; `none` is the loop's `else:` clause (fuel exhausted). -/
def followChain (dups : List (String × String)) : String → Nat → Option String
  | _, 0 => none
  | t, Nat.succ fuel =>
    match List.lookup t dups with
    | none => some t
    | some t2 => followChain dups t2 fuel

/-- Python dict assignment `source_title[k] = v` on an association list
(Title data abstracted to a comparable value). -/
def dictInsertS (m : List (String × Nat)) (k : String) (v : Nat) : List (String × Nat) :=
  if m.any fun p => decide (p.1 = k) then
    m.map fun p => if p.1 = k then (k, v) else p
  else m ++ [(k, v)]

/-- One iteration of `for source, target in duplicate_source.items()`
(lines 106-119): reject a source that already has data, follow the target
chain with fuel `len(duplicate_source) + 1`, reject a dangling terminal
target, else bind the source to the terminal target's title. -/
def resolveDup (dups : List (String × String)) (st : List (String × Nat))
    (rel : String × String) : Except DupError (List (String × Nat)) :=
  if (List.lookup rel.1 st).isSome then .error (.sourceHasData rel.1)
  else
    match followChain dups rel.2 (dups.length + 1) with
    | none => .error (.selfDuplicate rel.1)
    | some t =>
      match List.lookup t st with
      | none => .error (.nonexistentTarget rel.1 t)
      | some title => .ok (dictInsertS st rel.1 title)

/-- The whole duplicate-resolution loop, iterating `resolveDup` over the
relations in insertion order and threading the `source_title` map. -/
def resolveDuplicates (dups : List (String × String)) (st : List (String × Nat)) :
    List (String × String) → Except DupError (List (String × Nat))
  | [] => .ok st
  | rel :: rels =>
    match resolveDup dups st rel with
    | .error e => .error e
    | .ok st2 => resolveDuplicates dups st2 rels

end BdmvDup

open ExtractMKV

lemma pyGet_natCast (l : List Int) (o : Nat) : pyGet l (o : Int) = l.get? o := by
  simp [pyGet]

lemma mem_titleDerived (title : TitleInfo) (st : StreamType) (x : Int) :
    x ∈ titleDerived title st ↔ x ∈ title.derived ∧ x ∈ title.streamsOf st := by
  simp [titleDerived, bdmvDerived, List.mem_filter]

/-- C1: for one Title and one stream type, with `actual` the sorted list of
that type's stream indices not in `derived`, a Selector matching the title
whose ordinal is `≥ len(actual)` makes `resolveCfg` exit fatally with
"could not find track N, only M tracks found", and an ordinal `< len(actual)`
resolves (in `resolveOrdinal`) to disc index `actual[ordinal]`. -/
theorem ordinal_resolution_of_selectors :
    (∀ (title : TitleInfo) (st : StreamType) (mapping : List (Int × Int))
        (ds : Bool) (key : Nat) (cfg : StreamCfg) (o : Nat),
      cfg.sourceKey = key → cfg.track.index = (o : Int) →
      (titleActual title st).length ≤ o →
      resolveCfg st (titleActual title st) (titleDerived title st) mapping ds key cfg =
        .fatal (.trackNotFound st (o : Int) (titleActual title st).length)) ∧
    (∀ (title : TitleInfo) (st : StreamType) (o : Nat)
        (h : o < (titleActual title st).length),
      resolveOrdinal st (titleActual title st) (o : Int) =
        .ok ((titleActual title st).get ⟨o, h⟩)) := by
  constructor
  · intro title st mapping ds key cfg o hkey hidx hlen
    unfold resolveCfg
    rw [if_neg (by simp [hkey])]
    rw [hidx]
    unfold resolveOrdinal
    rw [if_pos (by exact_mod_cast hlen)]
    rfl
  · intro title st o h
    unfold resolveOrdinal
    rw [if_neg (by exact_mod_cast Nat.not_le.mpr h)]
    rw [pyGet_natCast, List.get?_eq_get h]

/-- Witness for C1 at a concrete title: `video = {0,1,2}`, `derived = {2}`,
so `actual = [0,1]`; ordinal 5 is fatal and ordinal 1 resolves to disc 1. -/
theorem ordinal_resolution_of_selectors_witness :
    resolveCfg .video (titleActual ⟨[0, 1, 2], [], [], [2]⟩ .video)
        (titleDerived ⟨[0, 1, 2], [], [], [2]⟩ .video) [] false 0
        ⟨0, ⟨5, false, false⟩, none, none, none, none, none, none, none⟩ =
      .fatal (.trackNotFound .video 5 2) ∧
    resolveOrdinal .video (titleActual ⟨[0, 1, 2], [], [], [2]⟩ .video) 1 = .ok 1 := by
  constructor
  · exact (ordinal_resolution_of_selectors.1 ⟨[0, 1, 2], [], [], [2]⟩ .video [] false 0
      ⟨0, ⟨5, false, false⟩, none, none, none, none, none, none, none⟩ 5 rfl rfl
      (by decide)).trans (by decide)
  · have h : (1 : Nat) < (titleActual ⟨[0, 1, 2], [], [], [2]⟩ .video).length := by decide
    exact ordinal_resolution_of_selectors.2 ⟨[0, 1, 2], [], [], [2]⟩ .video 1 h

/-- C2: a Selector requesting the derived sibling of the actual stream `a`
at its ordinal succeeds with disc index `a+1` iff `a+1` is in the title's
stream set for that type and in `derived`; otherwise it is fatal with
"expected stream to be derived". -/
theorem derived_sibling_resolution :
    ∀ (title : TitleInfo) (st : StreamType) (ti a : Int),
      (applyDerived st (titleDerived title st) ti true a = .ok (a + 1) ↔
        ((a + 1) ∈ title.streamsOf st ∧ (a + 1) ∈ title.derived)) ∧
      (¬((a + 1) ∈ title.streamsOf st ∧ (a + 1) ∈ title.derived) →
        applyDerived st (titleDerived title st) ti true a =
          .fatal (.expectedDerived (a + 1) st ti)) := by
  intro title st ti a
  constructor
  · constructor
    · intro h
      by_cases hm : (a + 1) ∈ titleDerived title st
      · have := (mem_titleDerived title st (a + 1)).mp hm
        exact ⟨this.2, this.1⟩
      · simp [applyDerived, hm] at h
    · intro h
      have hm : (a + 1) ∈ titleDerived title st :=
        (mem_titleDerived title st (a + 1)).mpr ⟨h.2, h.1⟩
      simp [applyDerived, hm]
  · intro h
    have hm : (a + 1) ∉ titleDerived title st := fun hc =>
      h ⟨((mem_titleDerived title st (a + 1)).mp hc).2,
         ((mem_titleDerived title st (a + 1)).mp hc).1⟩
    simp [applyDerived, hm]

/-- Witness for C2: with no derived streams at all, requesting the derived
sibling of actual stream 0 fails fatally. -/
theorem derived_sibling_resolution_witness :
    applyDerived .video (titleDerived ⟨[0, 1], [], [], []⟩ .video) 0 true 0 =
      .fatal (.expectedDerived 1 .video 0) := by
  exact ((derived_sibling_resolution ⟨[0, 1], [], [], []⟩ .video 0 0).2
    (by decide)).trans (by decide)

/-- C9: the bounds check of line 143 only rejects `track_index ≥ len(actual)`,
so a negative ordinal whose magnitude is at most `len(actual)` is accepted
and Python's negative indexing returns the actual stream counted from the
end of the sorted list; in particular ordinal `-1` yields the last actual
stream. -/
theorem negative_ordinal_resolution :
    (∀ (title : TitleInfo) (st : StreamType) (o : Int),
      o < 0 → (-o).toNat ≤ (titleActual title st).length →
      ∃ x, (titleActual title st).get?
          ((titleActual title st).length - (-o).toNat) = some x ∧
        resolveOrdinal st (titleActual title st) o = .ok x) ∧
    (∀ (title : TitleInfo) (st : StreamType) (x : Int),
      (titleActual title st).getLast? = some x →
      resolveOrdinal st (titleActual title st) (-1) = .ok x) := by
  have main : ∀ (title : TitleInfo) (st : StreamType) (o : Int),
      o < 0 → (-o).toNat ≤ (titleActual title st).length →
      ∃ x, (titleActual title st).get?
          ((titleActual title st).length - (-o).toNat) = some x ∧
        resolveOrdinal st (titleActual title st) o = .ok x := by
    intro title st o ho hlen
    have hk1 : 1 ≤ (-o).toNat := by omega
    have hp : (titleActual title st).length - (-o).toNat <
        (titleActual title st).length := by omega
    refine ⟨(titleActual title st).get ⟨_, hp⟩, List.get?_eq_get hp, ?_⟩
    unfold resolveOrdinal
    rw [if_neg (by omega)]
    unfold pyGet
    rw [if_neg (by omega), if_pos hlen, List.get?_eq_get hp]
  refine ⟨main, ?_⟩
  intro title st x hx
  have hne : titleActual title st ≠ [] := by
    intro h
    rw [h] at hx
    simp at hx
  have hlen : 0 < (titleActual title st).length := List.length_pos.mpr hne
  obtain ⟨y, hy1, hy2⟩ := main title st (-1) (by omega) (by omega)
  simp only [neg_neg, Int.toNat_one] at hy1
  rw [List.getLast?_eq_get? _, hy1] at hx
  obtain rfl : y = x := by
    injection hx
  exact hy2

/-- Witness for C9: `video = {5,3}` sorts to `actual = [3,5]`; ordinal `-1`
resolves without failure to the last actual stream, disc index 5. -/
theorem negative_ordinal_resolution_witness :
    resolveOrdinal .video (titleActual ⟨[5, 3], [], [], []⟩ .video) (-1) = .ok 5 := by
  exact negative_ordinal_resolution.2 ⟨[5, 3], [], [], []⟩ .video 5 (by decide)

/-- C3 (evaluation at the failing input): a Selector resolved to disc index
2 with a container track mapping built from declared numbers `[1,2]` (so
keys `{0,1}`) does terminate the run, but via the unhandled NameError of
line 153 (the `logging.critical` call references the undefined variable
`config_track`), not via the logged "track not found" fatal path. -/
theorem mapping_absence_raises_nameError :
    normalizeStreams .video
      [⟨0, ⟨2, false, false⟩, none, none, none, none, none, none, none⟩] 0
      ⟨[0, 1, 2], [], [], []⟩ (buildTrackMapping [(1, 0), (2, 1)]) =
    .exc .nameError := by decide

/-- C10: a derived index (0) that survives the earlier filters — it is in
the title's video stream set, in the track mapping, and unselected — but is
smaller than every actual index makes the unused-derived scan raise an
unhandled ValueError (`max()` of an empty generator, line 162) instead of
warning or exiting via the logged fatal path. -/
theorem unused_derived_scan_crash :
    normalizeStreams .video ([] : List StreamCfg) 0 ⟨[0, 1], [], [], [0]⟩ [(0, 5)] =
      .exc .valueError ∧
    (0 : Int) ∈ titleDerived ⟨[0, 1], [], [], [0]⟩ .video ∧
    (List.lookup (0 : Int) [((0 : Int), (5 : Int))]).isSome = true ∧
    titleActual ⟨[0, 1], [], [], [0]⟩ .video = [1] ∧
    attachedActual (titleActual ⟨[0, 1], [], [], [0]⟩ .video) 0 = none := by decide

lemma getD_false_eq_true_iff (o : Option Bool) : o.getD false = true ↔ o = some true := by
  cases o <;> simp

lemma any_default_iff (cfgs : List ConfigPy.StreamConfig) :
    (cfgs.any fun c => c.default.getD false) = true ↔ ∃ c ∈ cfgs, c.default = some true := by
  simp [List.any_eq_true, getD_false_eq_true_iff]

/-- C4: in `parse_stream_configs`, if some Selector in the list explicitly
sets `default = true`, every Selector whose `default` is unset ends up with
`default = false` and every explicitly set `default` is kept; if no
Selector has `default = true`, the list is returned unmodified. -/
theorem default_flag_inference :
    ∀ (cfgs : List ConfigPy.StreamConfig),
      ((∃ c ∈ cfgs, c.default = some true) →
        ∀ (i : Nat) (c : ConfigPy.StreamConfig), cfgs.get? i = some c →
          (c.default = none →
            (ConfigPy.inferDefaults cfgs).get? i = some { c with default := some false }) ∧
          (∀ b, c.default = some b → (ConfigPy.inferDefaults cfgs).get? i = some c)) ∧
      ((¬∃ c ∈ cfgs, c.default = some true) → ConfigPy.inferDefaults cfgs = cfgs) := by
  intro cfgs
  constructor
  · intro hex i c hget
    have hc : (cfgs.any fun c => c.default.getD false) = true := (any_default_iff cfgs).mpr hex
    constructor
    · intro hnone
      unfold ConfigPy.inferDefaults
      rw [if_pos hc, List.get?_map, hget]
      simp [hnone]
    · intro b hb
      unfold ConfigPy.inferDefaults
      rw [if_pos hc, List.get?_map, hget]
      simp [hb]
  · intro hnex
    unfold ConfigPy.inferDefaults
    rw [if_neg fun hc => hnex ((any_default_iff cfgs).mp hc)]

/-- Witness for C4: a list whose first Selector opts in (`default = true`)
and whose second leaves `default` unset; the second ends up with
`default = false`. -/
theorem default_flag_inference_witness :
    (ConfigPy.inferDefaults
        [⟨⟨0, .video, 0, false⟩, none, none, some true, none, none, none⟩,
         ⟨⟨0, .video, 1, false⟩, none, none, none, none, none, none⟩]).get? 1 =
      some ⟨⟨0, .video, 1, false⟩, none, none, some false, none, none, none⟩ := by
  have h := (default_flag_inference
      [⟨⟨0, .video, 0, false⟩, none, none, some true, none, none, none⟩,
       ⟨⟨0, .video, 1, false⟩, none, none, none, none, none, none⟩]).1
    ⟨⟨⟨0, .video, 0, false⟩, none, none, some true, none, none, none⟩, by decide, rfl⟩
  exact (h 1 ⟨⟨0, .video, 1, false⟩, none, none, none, none, none, none⟩ rfl).1 rfl

open BdmvDup

lemma followChain_terminal (dups : List (String × String)) :
    ∀ (fuel : Nat) (t u : String),
      followChain dups t fuel = some u → List.lookup u dups = none := by
  intro fuel
  induction fuel with
  | zero =>
    intro t u h
    simp [followChain] at h
  | succ n ih =>
    intro t u h
    rw [followChain] at h
    cases hl : List.lookup t dups with
    | none =>
      rw [hl] at h
      injection h with h
      subst h
      exact hl
    | some t2 =>
      rw [hl] at h
      exact ih t2 u h

/-- C5: for a duplicate relation `(source, target)`, a source that is
already a resolved key is fatal; otherwise the target chain is followed
through the relation set for at most `len(duplicate_source) + 1` steps,
exhausting the bound (e.g. `A → B → A`) is a fatal cycle, a terminal
target with no resolved Title is a fatal "duplicate of nonexistent title",
and otherwise the source is bound to the terminal target's Title — so
`s → t → t2 → r` resolves `s` to `r`'s data.  Any chain result is outside
the relation set (it genuinely terminated). -/
theorem duplicate_chain_resolution :
    (∀ (dups : List (String × String)) (st : List (String × Nat)) (rel : String × String),
      ((List.lookup rel.1 st).isSome →
        resolveDup dups st rel = .error (.sourceHasData rel.1)) ∧
      (List.lookup rel.1 st = none →
        followChain dups rel.2 (dups.length + 1) = none →
        resolveDup dups st rel = .error (.selfDuplicate rel.1)) ∧
      (∀ t, List.lookup rel.1 st = none →
        followChain dups rel.2 (dups.length + 1) = some t →
        List.lookup t st = none →
        resolveDup dups st rel = .error (.nonexistentTarget rel.1 t)) ∧
      (∀ t ti, List.lookup rel.1 st = none →
        followChain dups rel.2 (dups.length + 1) = some t →
        List.lookup t st = some ti →
        resolveDup dups st rel = .ok (dictInsertS st rel.1 ti)) ∧
      (∀ (t : String) (fuel : Nat) (u : String),
        followChain dups t fuel = some u → List.lookup u dups = none)) ∧
    resolveDuplicates [("s", "t"), ("t", "t2"), ("t2", "r")] [("r", 7)]
        [("s", "t"), ("t", "t2"), ("t2", "r")] =
      .ok [("r", 7), ("s", 7), ("t", 7), ("t2", 7)] ∧
    resolveDuplicates [("A", "B"), ("B", "A")] [] [("A", "B"), ("B", "A")] =
      .error (.selfDuplicate "A") := by
  refine ⟨?_, by rfl, by rfl⟩
  intro dups st rel
  refine ⟨?_, ?_, ?_, ?_, fun t fuel u h => followChain_terminal dups fuel t u h⟩
  · intro h
    simp [resolveDup, h]
  · intro h1 h2
    simp [resolveDup, h1, h2]
  · intro t h1 h2 h3
    simp [resolveDup, h1, h2, h3]
  · intro t ti h1 h2 h3
    simp [resolveDup, h1, h2, h3]

/-- Witness for C5: the single relation `a → b` with `b` holding real
title data binds `a` to `b`'s title. -/
theorem duplicate_chain_resolution_witness :
    resolveDup [("a", "b")] [("b", 5)] ("a", "b") = .ok [("b", 5), ("a", 5)] := by
  have h := (duplicate_chain_resolution.1 [("a", "b")] [("b", 5)] ("a", "b")).2.2.2.1 "b" 5
  exact (h (by rfl) (by rfl) (by rfl)).trans (by rfl)

lemma resolveCfg_ok_cases {st : StreamType} {actual bd : List Int}
    {mapping : List (Int × Int)} {ds : Bool} {key : Nat} {cfg cfg' : StreamCfg}
    {u : List Int}
    (h : resolveCfg st actual bd mapping ds key cfg = .ok (cfg', u)) :
    (cfg.sourceKey ≠ key ∧ cfg' = cfg ∧ u = []) ∨
    (cfg.sourceKey = key ∧ ∃ a t,
      List.lookup a mapping = some t ∧ u = [a] ∧
      cfg' = { cfg with
                default := if ds then some (cfg.default.getD false) else cfg.default,
                resolvedTrack := some t } ∧
      Outcome.bind (resolveOrdinal st actual cfg.track.index)
        (applyDerived st bd cfg.track.index (cfg.track.core || cfg.track.forced)) =
          .ok a) := by
  unfold resolveCfg at h
  by_cases hk : cfg.sourceKey ≠ key
  · rw [if_pos hk] at h
    simp only [Outcome.ok.injEq, Prod.mk.injEq] at h
    exact Or.inl ⟨hk, h.1.symm, h.2.symm⟩
  · rw [if_neg hk] at h
    right
    refine ⟨not_ne_iff.mp hk, ?_⟩
    cases hA : resolveOrdinal st actual cfg.track.index with
    | fatal e => rw [hA] at h; simp [Outcome.bind] at h
    | exc e => rw [hA] at h; simp [Outcome.bind] at h
    | ok a0 =>
      rw [hA] at h
      simp only [Outcome.bind] at h
      cases hB : applyDerived st bd cfg.track.index (cfg.track.core || cfg.track.forced) a0 with
      | fatal e => rw [hB] at h; simp [Outcome.bind] at h
      | exc e => rw [hB] at h; simp [Outcome.bind] at h
      | ok a =>
        rw [hB] at h
        simp only [Outcome.bind] at h
        cases hL : List.lookup a mapping with
        | none => rw [hL] at h; simp at h
        | some t =>
          rw [hL] at h
          simp only [Outcome.ok.injEq, Prod.mk.injEq] at h
          refine ⟨a, t, hL, h.2.symm, h.1.symm, ?_⟩
          simpa [Outcome.bind] using hB

lemma resolveCfg_matching {st : StreamType} {actual bd : List Int}
    {mapping : List (Int × Int)} {ds : Bool} {key : Nat} {cfg : StreamCfg}
    {a t : Int}
    (hk : cfg.sourceKey = key)
    (hres : Outcome.bind (resolveOrdinal st actual cfg.track.index)
      (applyDerived st bd cfg.track.index (cfg.track.core || cfg.track.forced)) = .ok a)
    (hL : List.lookup a mapping = some t) :
    resolveCfg st actual bd mapping ds key cfg =
      .ok ({ cfg with
              default := if ds then some (cfg.default.getD false) else cfg.default,
              resolvedTrack := some t }, [a]) := by
  unfold resolveCfg
  rw [if_neg (by simp [hk])]
  cases hA : resolveOrdinal st actual cfg.track.index with
  | fatal e => rw [hA] at hres; simp [Outcome.bind] at hres
  | exc e => rw [hA] at hres; simp [Outcome.bind] at hres
  | ok a0 =>
    rw [hA] at hres
    simp only [Outcome.bind] at hres
    simp [Outcome.bind, hres, hL]

lemma resolveCfg_frame {st : StreamType} {actual bd : List Int}
    {mapping : List (Int × Int)} {ds : Bool} {key : Nat} {cfg cfg' : StreamCfg}
    {u : List Int}
    (h : resolveCfg st actual bd mapping ds key cfg = .ok (cfg', u)) :
    FramePreserved key cfg cfg' := by
  rcases resolveCfg_ok_cases h with ⟨hk, rfl, rfl⟩ | ⟨hk, a, t, hL, rfl, rfl, hres⟩
  · exact ⟨rfl, rfl, rfl, rfl, rfl, rfl, rfl, fun _ => rfl⟩
  · exact ⟨rfl, rfl, rfl, rfl, rfl, rfl, rfl, fun hne => absurd hk hne⟩

lemma resolveCfg_defaultBit {st : StreamType} {actual bd : List Int}
    {mapping : List (Int × Int)} {ds : Bool} {key : Nat} {cfg cfg' : StreamCfg}
    {u : List Int}
    (h : resolveCfg st actual bd mapping ds key cfg = .ok (cfg', u)) :
    cfg'.default.getD false = cfg.default.getD false := by
  rcases resolveCfg_ok_cases h with ⟨hk, rfl, rfl⟩ | ⟨hk, a, t, hL, rfl, rfl, hres⟩
  · rfl
  · cases ds <;> rfl

lemma resolveCfg_idem {st : StreamType} {actual bd : List Int}
    {mapping : List (Int × Int)} {ds : Bool} {key : Nat} {cfg cfg' : StreamCfg}
    {u : List Int}
    (h : resolveCfg st actual bd mapping ds key cfg = .ok (cfg', u)) :
    resolveCfg st actual bd mapping ds key cfg' = .ok (cfg', u) := by
  rcases resolveCfg_ok_cases h with ⟨hk, rfl, rfl⟩ | ⟨hk, a, t, hL, rfl, rfl, hres⟩
  · unfold resolveCfg
    rw [if_pos hk]
  · have h2 := @resolveCfg_matching st actual bd mapping ds key
      { cfg with
          default := if ds then some (cfg.default.getD false) else cfg.default,
          resolvedTrack := some t } a t hk hres hL
    rw [h2]
    cases ds <;> rfl

lemma resolveAll_frame {st : StreamType} {actual bd : List Int}
    {mapping : List (Int × Int)} {ds : Bool} {key : Nat} :
    ∀ {cfgs cfgs' : List StreamCfg} {used : List Int},
      resolveAll st actual bd mapping ds key cfgs = .ok (cfgs', used) →
      List.Forall₂ (FramePreserved key) cfgs cfgs' := by
  intro cfgs
  induction cfgs with
  | nil =>
    intro cfgs' used h
    simp only [resolveAll, Outcome.ok.injEq, Prod.mk.injEq] at h
    rw [← h.1]
    exact List.Forall₂.nil
  | cons c cs ih =>
    intro cfgs' used h
    rw [resolveAll] at h
    cases hc : resolveCfg st actual bd mapping ds key c with
    | fatal e => rw [hc] at h; simp at h
    | exc e => rw [hc] at h; simp at h
    | ok p =>
      obtain ⟨c', u⟩ := p
      rw [hc] at h
      cases hr : resolveAll st actual bd mapping ds key cs with
      | fatal e => rw [hr] at h; simp at h
      | exc e => rw [hr] at h; simp at h
      | ok q =>
        obtain ⟨cs', us⟩ := q
        rw [hr] at h
        simp only [Outcome.ok.injEq, Prod.mk.injEq] at h
        rw [← h.1]
        exact List.Forall₂.cons (resolveCfg_frame hc) (ih hr)

lemma resolveAll_defaultSpec {st : StreamType} {actual bd : List Int}
    {mapping : List (Int × Int)} {ds : Bool} {key : Nat} :
    ∀ {cfgs cfgs' : List StreamCfg} {used : List Int},
      resolveAll st actual bd mapping ds key cfgs = .ok (cfgs', used) →
      defaultSpecified cfgs' = defaultSpecified cfgs := by
  intro cfgs
  induction cfgs with
  | nil =>
    intro cfgs' used h
    simp only [resolveAll, Outcome.ok.injEq, Prod.mk.injEq] at h
    rw [← h.1]
  | cons c cs ih =>
    intro cfgs' used h
    rw [resolveAll] at h
    cases hc : resolveCfg st actual bd mapping ds key c with
    | fatal e => rw [hc] at h; simp at h
    | exc e => rw [hc] at h; simp at h
    | ok p =>
      obtain ⟨c', u⟩ := p
      rw [hc] at h
      cases hr : resolveAll st actual bd mapping ds key cs with
      | fatal e => rw [hr] at h; simp at h
      | exc e => rw [hr] at h; simp at h
      | ok q =>
        obtain ⟨cs', us⟩ := q
        rw [hr] at h
        simp only [Outcome.ok.injEq, Prod.mk.injEq] at h
        rw [← h.1]
        simp only [defaultSpecified, List.any_cons]
        have h1 := resolveCfg_defaultBit hc
        have h2 := ih hr
        simp only [defaultSpecified] at h2
        rw [h1, h2]

lemma resolveAll_idem {st : StreamType} {actual bd : List Int}
    {mapping : List (Int × Int)} {ds : Bool} {key : Nat} :
    ∀ {cfgs cfgs' : List StreamCfg} {used : List Int},
      resolveAll st actual bd mapping ds key cfgs = .ok (cfgs', used) →
      resolveAll st actual bd mapping ds key cfgs' = .ok (cfgs', used) := by
  intro cfgs
  induction cfgs with
  | nil =>
    intro cfgs' used h
    simp only [resolveAll, Outcome.ok.injEq, Prod.mk.injEq] at h
    rw [← h.1, ← h.2]
    rfl
  | cons c cs ih =>
    intro cfgs' used h
    rw [resolveAll] at h
    cases hc : resolveCfg st actual bd mapping ds key c with
    | fatal e => rw [hc] at h; simp at h
    | exc e => rw [hc] at h; simp at h
    | ok p =>
      obtain ⟨c', u⟩ := p
      rw [hc] at h
      cases hr : resolveAll st actual bd mapping ds key cs with
      | fatal e => rw [hr] at h; simp at h
      | exc e => rw [hr] at h; simp at h
      | ok q =>
        obtain ⟨cs', us⟩ := q
        rw [hr] at h
        simp only [Outcome.ok.injEq, Prod.mk.injEq] at h
        rw [← h.1, ← h.2]
        simp [resolveAll, resolveCfg_idem hc, ih hr]

lemma normalizeStreams_eval {st : StreamType} {cfgs : List StreamCfg} {key : Nat}
    {title : TitleInfo} {mapping : List (Int × Int)} {cfgs' : List StreamCfg}
    {used : List Int} {ws : List Nat}
    (hr : resolveAll st (titleActual title st) (titleDerived title st) mapping
      (defaultSpecified cfgs) key cfgs = .ok (cfgs', used))
    (hs : scanUnused st (titleActual title st) used mapping (titleDerived title st) =
      (ws, none)) :
    normalizeStreams st cfgs key title mapping = .ok ⟨title, cfgs', used, ws⟩ := by
  unfold normalizeStreams
  rw [hr]
  show (match scanUnused st (titleActual title st) used mapping (titleDerived title st) with
    | (_, some e) => Outcome.exc e
    | (ws2, none) => Outcome.ok (⟨title, cfgs', used, ws2⟩ : NormOut)) =
      Outcome.ok (⟨title, cfgs', used, ws⟩ : NormOut)
  rw [hs]

lemma normalizeStreams_ok_inv {st : StreamType} {cfgs : List StreamCfg} {key : Nat}
    {title : TitleInfo} {mapping : List (Int × Int)} {out : NormOut}
    (h : normalizeStreams st cfgs key title mapping = .ok out) :
    out.title = title ∧
    resolveAll st (titleActual title st) (titleDerived title st) mapping
      (defaultSpecified cfgs) key cfgs = .ok (out.configs, out.used) ∧
    scanUnused st (titleActual title st) out.used mapping (titleDerived title st) =
      (out.warnings, none) := by
  unfold normalizeStreams at h
  cases hr : resolveAll st (titleActual title st) (titleDerived title st) mapping
      (defaultSpecified cfgs) key cfgs with
  | fatal e => rw [hr] at h; simp at h
  | exc e => rw [hr] at h; simp at h
  | ok p =>
    obtain ⟨cfgs', used⟩ := p
    rw [hr] at h
    simp only [Outcome.ok.injEq] at h
    cases hs : scanUnused st (titleActual title st) used mapping (titleDerived title st) with
    | mk ws eopt =>
      rw [hs] at h
      cases eopt with
      | some e => simp at h
      | none =>
        simp only [Outcome.ok.injEq] at h
        subst h
        exact ⟨rfl, rfl, hs⟩

lemma scanUnused_audio (actual used : List Int) (mapping : List (Int × Int)) :
    ∀ ds : List Int, scanUnused .audio actual used mapping ds = ([], none) := by
  intro ds
  induction ds with
  | nil => rfl
  | cons d ds ih => simp [scanUnused, ih]

lemma scanUnused_characterization {st : StreamType} {actual used : List Int}
    {mapping : List (Int × Int)}
    (hst : st ≠ .audio) :
    ∀ {ds : List Int},
      (∀ d ∈ ds, (List.lookup d mapping).isSome = true → d ∉ used →
        (attachedActual actual d).isSome = true) →
      scanUnused st actual used mapping ds =
        ((ds.filter (unusedQualifies actual used mapping)).map (unusedWarning actual),
          none) := by
  intro ds
  induction ds with
  | nil => intro _; rfl
  | cons d ds ih =>
    intro hc
    have hc2 : ∀ d2 ∈ ds, (List.lookup d2 mapping).isSome = true → d2 ∉ used →
        (attachedActual actual d2).isSome = true :=
      fun d2 hd2 => hc d2 (List.mem_cons_of_mem _ hd2)
    rw [scanUnused, if_neg hst]
    by_cases hL : (List.lookup d mapping).isNone
    · rw [if_pos hL, ih hc2]
      have hq : unusedQualifies actual used mapping d = false := by
        simp [unusedQualifies, Option.isNone_iff_eq_none.mp hL]
      simp [List.filter_cons, hq]
    · rw [if_neg hL]
      by_cases hU : d ∈ used
      · rw [if_pos hU, ih hc2]
        have hq : unusedQualifies actual used mapping d = false := by
          simp [unusedQualifies, hU]
        simp [List.filter_cons, hq]
      · rw [if_neg hU]
        have hA : (attachedActual actual d).isSome = true :=
          hc d (List.mem_cons_self _ _) (by simpa using hL) hU
        obtain ⟨a, ha⟩ := Option.isSome_iff_exists.mp hA
        rw [ha]
        show (if a ∈ used then
            ((actual.indexOf a) :: (scanUnused st actual used mapping ds).1,
              (scanUnused st actual used mapping ds).2)
          else scanUnused st actual used mapping ds) = _
        by_cases hS : a ∈ used
        · rw [if_pos hS, ih hc2]
          have hLs : (List.lookup d mapping).isSome = true := by
            cases hl2 : List.lookup d mapping with
            | none => exact absurd (by simp [hl2]) hL
            | some v => rfl
          have hq : unusedQualifies actual used mapping d = true := by
            simp [unusedQualifies, ha, hS, hU, hLs]
          have hw : unusedWarning actual d = actual.indexOf a := by
            simp [unusedWarning, ha]
          simp [List.filter_cons, hq, hw]
        · rw [if_neg hS, ih hc2]
          have hq : unusedQualifies actual used mapping d = false := by
            simp [unusedQualifies, ha, hS]
          simp [List.filter_cons, hq]

/-- C8: a successful run of `normalize_bdmv_title_streams` leaves the
title's stream-inventory sets untouched and, selector by selector, changes
at most the `default` flag and the attached `"_track"`; every other field
(`sourceKey`, `track` with its ordinal and core/forced flags, `name`,
`language`, `forced`, `commentary`, `cropping`) is preserved, and a
selector whose source key does not match the processed title is returned
entirely unchanged. -/
theorem resolution_frame :
    ∀ (st : StreamType) (cfgs : List StreamCfg) (key : Nat) (title : TitleInfo)
      (mapping : List (Int × Int)) (out : NormOut),
      normalizeStreams st cfgs key title mapping = .ok out →
      out.title = title ∧ List.Forall₂ (FramePreserved key) cfgs out.configs := by
  intro st cfgs key title mapping out h
  obtain ⟨h1, h2, _⟩ := normalizeStreams_ok_inv h
  exact ⟨h1, resolveAll_frame h2⟩

/-- Witness for C8 at a concrete input: the selector keeps all metadata
fields and only gains `"_track"`. -/
theorem resolution_frame_witness :
    ((⟨⟨[0, 1, 2], [], [], [2]⟩,
        [⟨0, ⟨1, false, false⟩, none, none, none, none, none, none, some 1⟩],
        [1], []⟩ : NormOut).title = ⟨[0, 1, 2], [], [], [2]⟩) ∧
    List.Forall₂ (FramePreserved 0)
      [⟨0, ⟨1, false, false⟩, none, none, none, none, none, none, none⟩]
      [⟨0, ⟨1, false, false⟩, none, none, none, none, none, none, some 1⟩] := by
  exact resolution_frame .video
    [⟨0, ⟨1, false, false⟩, none, none, none, none, none, none, none⟩] 0
    ⟨[0, 1, 2], [], [], [2]⟩ [(0, 0), (1, 1)]
    ⟨⟨[0, 1, 2], [], [], [2]⟩,
      [⟨0, ⟨1, false, false⟩, none, none, none, none, none, none, some 1⟩], [1], []⟩
    (by decide)

/-- C7: resolution is idempotent: a successful run of
`normalize_bdmv_title_streams` re-run on the already-mutated selector
records (same Title, same container track mapping) reproduces exactly the
same selector records, `used` list and warnings. -/
theorem resolution_idempotent :
    ∀ (st : StreamType) (cfgs : List StreamCfg) (key : Nat) (title : TitleInfo)
      (mapping : List (Int × Int)) (out : NormOut),
      normalizeStreams st cfgs key title mapping = .ok out →
      normalizeStreams st out.configs key title mapping = .ok out := by
  intro st cfgs key title mapping out h
  obtain ⟨h1, h2, h3⟩ := normalizeStreams_ok_inv h
  have hds : defaultSpecified out.configs = defaultSpecified cfgs := resolveAll_defaultSpec h2
  have hr2 : resolveAll st (titleActual title st) (titleDerived title st) mapping
      (defaultSpecified out.configs) key out.configs = .ok (out.configs, out.used) := by
    rw [hds]
    exact resolveAll_idem h2
  have := normalizeStreams_eval hr2 h3
  rw [this]
  subst h1
  rfl

/-- Witness for C7: re-running resolution on the already-resolved selector
reproduces the same output. -/
theorem resolution_idempotent_witness :
    normalizeStreams .video
      [⟨0, ⟨1, false, false⟩, none, none, none, none, none, none, some 1⟩] 0
      ⟨[0, 1, 2], [], [], [2]⟩ [(0, 0), (1, 1)] =
    .ok ⟨⟨[0, 1, 2], [], [], [2]⟩,
      [⟨0, ⟨1, false, false⟩, none, none, none, none, none, none, some 1⟩],
      [1], []⟩ := by
  exact resolution_idempotent .video
    [⟨0, ⟨1, false, false⟩, none, none, none, none, none, none, none⟩] 0
    ⟨[0, 1, 2], [], [], [2]⟩ [(0, 0), (1, 1)]
    ⟨⟨[0, 1, 2], [], [], [2]⟩,
      [⟨0, ⟨1, false, false⟩, none, none, none, none, none, none, some 1⟩], [1], []⟩
    (by decide)

/-- C6 counterexample: derived index 2 is in the title's video stream set
and in `derived`, is not selected (`used = [1]`), and its attached actual
stream 1 is selected — the claim as stated demands exactly one warning —
yet the run succeeds with an empty warning list, because 2 is absent from
the container track mapping and line 160 skips it. -/
theorem unused_derived_mapping_filter_cex :
    normalizeStreams .video
      [⟨0, ⟨1, false, false⟩, none, none, none, none, none, none, none⟩] 0
      ⟨[0, 1, 2], [], [], [2]⟩ [(0, 0), (1, 1)] =
    .ok ⟨⟨[0, 1, 2], [], [], [2]⟩,
      [⟨0, ⟨1, false, false⟩, none, none, none, none, none, none, some 1⟩],
      [1], []⟩ ∧
    (2 : Int) ∈ titleDerived ⟨[0, 1, 2], [], [], [2]⟩ .video ∧
    (2 : Int) ∈ TitleInfo.streamsOf ⟨[0, 1, 2], [], [], [2]⟩ .video ∧
    (2 : Int) ∉ ([1] : List Int) ∧
    attachedActual (titleActual ⟨[0, 1, 2], [], [], [2]⟩ .video) 2 = some 1 ∧
    (1 : Int) ∈ ([1] : List Int) := by decide

/-- C6 (amended): for video/subtitle stream types, every index in
`derived` that belongs to the title's stream set, **is present in the
container track mapping**, was not selected, and whose attached actual
stream (largest actual index at most it) was selected, produces exactly
one warning — the warning list is exactly the filtered `derived` list
mapped to warning ordinals (provided every considered derived index has
an attached actual stream, otherwise the scan crashes, cf. the
ValueError case); the audio scan never warns; and the warnings do not
alter the resolved selectors or the used list. -/
theorem unused_derived_warning_amended :
    (∀ (title : TitleInfo) (st : StreamType) (used : List Int)
        (mapping : List (Int × Int)),
      st ≠ .audio →
      (∀ d ∈ titleDerived title st, (List.lookup d mapping).isSome = true →
        d ∉ used → (attachedActual (titleActual title st) d).isSome = true) →
      scanUnused st (titleActual title st) used mapping (titleDerived title st) =
        (((titleDerived title st).filter
            (unusedQualifies (titleActual title st) used mapping)).map
          (unusedWarning (titleActual title st)), none)) ∧
    (∀ (title : TitleInfo) (used : List Int) (mapping : List (Int × Int)),
      scanUnused .audio (titleActual title .audio) used mapping
        (titleDerived title .audio) = ([], none)) ∧
    (∀ (st : StreamType) (cfgs : List StreamCfg) (key : Nat) (title : TitleInfo)
        (mapping : List (Int × Int)) (out : NormOut),
      normalizeStreams st cfgs key title mapping = .ok out →
      resolveAll st (titleActual title st) (titleDerived title st) mapping
        (defaultSpecified cfgs) key cfgs = .ok (out.configs, out.used)) := by
  refine ⟨?_, ?_, ?_⟩
  · intro title st used mapping hst hc
    exact scanUnused_characterization hst hc
  · intro title used mapping
    exact scanUnused_audio _ _ _ _
  · intro st cfgs key title mapping out h
    exact (normalizeStreams_ok_inv h).2.1

/-- Witness for C6 (amended): with the derived index present in the track
mapping, unselected, and its attached actual stream selected, the scan
emits exactly one warning naming ordinal 1. -/
theorem unused_derived_warning_amended_witness :
    scanUnused .video (titleActual ⟨[0, 1, 2], [], [], [2]⟩ .video) [1]
      [(0, 0), (1, 1), (2, 2)] (titleDerived ⟨[0, 1, 2], [], [], [2]⟩ .video) =
    ([1], none) := by
  exact (unused_derived_warning_amended.1 ⟨[0, 1, 2], [], [], [2]⟩ .video [1]
    [(0, 0), (1, 1), (2, 2)] (by decide) (by decide)).trans (by decide)

section Scratch

open ExtractMKV

example : titleActual ⟨[2, 0, 1], [], [], [2]⟩ .video = [0, 1] := by decide

example : resolveOrdinal .video [0, 1] 1 = .ok 1 := by decide

example : resolveOrdinal .video [0, 1] 2 = .fatal (.trackNotFound .video 2 2) := by decide

example : resolveOrdinal .video [0, 1] (-1) = .ok 1 := by decide

example : resolveOrdinal .video [0, 1] (-3) = .exc .indexError := by decide

example : applyDerived .video [2] 1 true 1 = .ok 2 := by decide

example : buildTrackMapping [(1, 0), (2, 1)] = [(0, 0), (1, 1)] := by decide

example :
    normalizeStreams .video
      [⟨0, ⟨1, false, false⟩, none, none, none, none, none, none, none⟩] 0
      ⟨[0, 1, 2], [], [], [2]⟩ [(0, 0), (1, 1)] =
    .ok ⟨⟨[0, 1, 2], [], [], [2]⟩,
      [⟨0, ⟨1, false, false⟩, none, none, none, none, none, none, some 1⟩],
      [1], []⟩ := by decide

end Scratch
